import Mathlib

/-!
Shallow embedding of the response-normalization logic of
`src/app/api/webhook/route.ts` (the `POST` handler of the `/api/webhook`
proxy endpoint), together with proofs of the specification's claims
about it.

The handler is modelled as a pure function of the inbound request body
(a JSON value) and the upstream webhook's HTTP response.  JavaScript
truthiness, the `||` operator, property lookup on untyped JSON values,
and the `Buffer`/`atob` base64 round trip are modelled explicitly.
-/

set_option maxHeartbeats 1000000

namespace Speecha

/-- JSON values, as produced by `response.json()` / `request.json()`.
Numbers are modelled as integers (all numbers occurring in the handler
are byte counts). Objects are association lists; lookup returns the
first binding. -/
inductive Json where
  | null : Json
  | bool (b : Bool) : Json
  | num (n : Int) : Json
  | str (s : String) : Json
  | arr (xs : List Json) : Json
  | obj (fields : List (String × Json)) : Json

namespace Json

/-- JavaScript truthiness of a defined value: `null`, `false`, `0` and
`""` are falsy; every array and object is truthy. -/
def truthy : Json → Bool
  | .null => false
  | .bool b => b
  | .num n => n != 0
  | .str s => s != ""
  | .arr _ => true
  | .obj _ => true

/-- Property lookup `v.k` on an untyped JSON value: `none` models
JavaScript `undefined` (lookup on non-objects, or a missing key). -/
def getField : Json → String → Option Json
  | .obj fields, k => (fields.find? (fun p => p.fst == k)).map Prod.snd
  | _, _ => none

end Json

/-- Truthiness of a possibly-`undefined` value (`none` is falsy). -/
def truthyOpt : Option Json → Bool
  | none => false
  | some j => j.truthy

/-- The test `typeof v === 'string'` on a possibly-`undefined` value. -/
def isStrOpt : Option Json → Bool
  | some (.str _) => true
  | _ => false

/-- JavaScript `a || b` on possibly-`undefined` values: the first
operand if it is truthy, otherwise the second. -/
def orJs (a b : Option Json) : Option Json :=
  if truthyOpt a then a else b

/-- JavaScript `a || d` with a defined default (used for the
`data.fileName || 'data.mpga'`-style defaults). -/
def orDefault (a : Option Json) (d : Json) : Json :=
  if truthyOpt a then a.getD d else d

/-- The string content of a value known to be a string. -/
def asStr : Option Json → String
  | some (.str s) => s
  | _ => ""

/-! ### Base64 (`Buffer.from(bytes).toString('base64')` and the standard
decoder the browser applies to `audioBase64`) -/

/-- The standard base64 alphabet. -/
def b64chars : List Char :=
  "ABCDEFGHIJKLMNOPQRSTUVWXYZabcdefghijklmnopqrstuvwxyz0123456789+/".data

/-- The character encoding a 6-bit group. -/
def encC (n : Nat) : Char := b64chars.getD n 'A'

/-- The 6-bit group a base64 character denotes. -/
def decC (c : Char) : Nat := b64chars.indexOf c

/-- Base64-encode a byte sequence (each `Nat` is one byte, `< 256`),
chunking 3 bytes into 4 characters and padding the final partial chunk
with `=`. -/
def encodeB64 : List Nat → List Char
  | [] => []
  | [b0] => [encC (b0 / 4), encC (b0 % 4 * 16), '=', '=']
  | [b0, b1] =>
      [encC (b0 / 4), encC (b0 % 4 * 16 + b1 / 16), encC (b1 % 16 * 4), '=']
  | b0 :: b1 :: b2 :: rest =>
      encC (b0 / 4) :: encC (b0 % 4 * 16 + b1 / 16) ::
        encC (b1 % 16 * 4 + b2 / 64) :: encC (b2 % 64) :: encodeB64 rest

/-- Decode one 4-character base64 quad into 1–3 bytes, honouring `=`
padding. -/
def decodeQuad (c0 c1 c2 c3 : Char) : List Nat :=
  if c2 = '=' then
    [decC c0 * 4 + decC c1 / 16]
  else if c3 = '=' then
    [decC c0 * 4 + decC c1 / 16, decC c1 % 16 * 16 + decC c2 / 4]
  else
    [decC c0 * 4 + decC c1 / 16, decC c1 % 16 * 16 + decC c2 / 4,
      decC c2 % 4 * 64 + decC c3]

/-- Standard base64 decoding of a character sequence, quad by quad. -/
def decodeB64 : List Char → List Nat
  | c0 :: c1 :: c2 :: c3 :: rest => decodeQuad c0 c1 c2 c3 ++ decodeB64 rest
  | _ => []

/-! ### `JSON.stringify` (used only to build the truncated log snippet) -/

/-- Lower-case hex digit (for `JSON.stringify` control escapes). -/
def hexDigit (n : Nat) : Char := "0123456789abcdef".data.getD n '0'

/-- Escape a character for a JSON string literal the way
`JSON.stringify` does: quote, backslash, the short control escapes
`\b \t \n \f \r`, and `\u00XX` for the remaining control characters. -/
def escC (c : Char) : String :=
  if c = '"' then "\\\""
  else if c = '\\' then "\\\\"
  else if c = '\x08' then "\\b"
  else if c = '\t' then "\\t"
  else if c = '\n' then "\\n"
  else if c = '\x0c' then "\\f"
  else if c = '\r' then "\\r"
  else if c.toNat < 32 then
    "\\u00" ++ String.mk [hexDigit (c.toNat / 16), hexDigit (c.toNat % 16)]
  else String.mk [c]

/-- Escape a string for a JSON string literal. -/
def escStr (s : String) : String := String.join (s.data.map escC)

mutual

/-- Serialization `JSON.stringify` of a value. -/
def stringifyJson : Json → String
  | .null => "null"
  | .bool true => "true"
  | .bool false => "false"
  | .num n => toString n
  | .str s => "\"" ++ escStr s ++ "\""
  | .arr xs => "[" ++ stringifyArr xs ++ "]"
  | .obj fs => "\x7b" ++ stringifyFields fs ++ "\x7d"

/-- Comma-separated stringification of array elements. -/
def stringifyArr : List Json → String
  | [] => ""
  | [x] => stringifyJson x
  | x :: xs => stringifyJson x ++ "," ++ stringifyArr xs

/-- Comma-separated stringification of object fields. -/
def stringifyFields : List (String × Json) → String
  | [] => ""
  | [(k, v)] => "\"" ++ escStr k ++ "\":" ++ stringifyJson v
  | (k, v) :: fs =>
      "\"" ++ escStr k ++ "\":" ++ stringifyJson v ++ "," ++ stringifyFields fs

end

/-! ### The handler -/

/-- Contiguous-sublist test used to model `String.includes`. -/
def containsSub (pat : List Char) : List Char → Bool
  | [] => pat.isPrefixOf []
  | c :: t => pat.isPrefixOf (c :: t) || containsSub pat t

/-- The test `str.includes(pat)` (substring containment). -/
def strContains (s pat : String) : Bool := containsSub pat.data s.data

/-- The upstream webhook's HTTP response as the handler observes it:
status line, `content-type` header (`none` when absent), and the body
through its three access paths (`arrayBuffer()` as raw bytes, `text()`,
and `json()`, where `none` models a JSON parse failure). -/
structure UpstreamResponse where
  status : Nat
  statusText : String
  contentType : Option String
  bodyBytes : List Nat
  bodyText : String
  bodyJson : Option Json

/-- The test `webhookResponse.ok`: status in the 2xx range. -/
def respOk (up : UpstreamResponse) : Bool :=
  200 ≤ up.status && up.status ≤ 299

/-- What a `NextResponse.json(body, { status })` reply plus the
`console.error` side channel amount to: HTTP status, JSON body, and the
list of logged messages. -/
structure HandlerOutput where
  status : Nat
  body : Json
  logged : List String

/-- An error response body carrying a single `error` message field. -/
def errBody (msg : String) : Json := .obj [("error", .str msg)]

/-- The `contentType && contentType.includes('audio/')` test selecting
the binary-audio branch. -/
def ctIsAudio : Option String → Bool
  | none => false
  | some c => (c != "") && strContains c "audio/"

/-- The file-extension / file-name cascade of the binary branch:
substring lookups on the content type, in source order, defaulting to
`mpga` / `data.mpga`. -/
def extLookup (ct : String) : String × String :=
  if strContains ct "mpeg" then ("mpga", "data.mpga")
  else if strContains ct "mp3" then ("mp3", "data.mp3")
  else if strContains ct "wav" then ("wav", "data.wav")
  else if strContains ct "ogg" then ("ogg", "data.ogg")
  else ("mpga", "data.mpga")

/-- The base64-derived file size:
`Math.floor((base64Length * 3) / 4) - padding`, where `padding` is
`(base64Audio.match(/=/g) || []).length`, i.e. the count of `=`
characters anywhere in the string. -/
def fileSizeOf (s : String) : Int :=
  ((s.length * 3 / 4 : Nat) : Int) - ((s.data.count '=' : Nat) : Int)

/-- Success body `{ success, file, text, voiceId }`. -/
def successBody (file : Json) (text voiceId : String) : Json :=
  .obj [("success", .bool true), ("file", file),
        ("text", .str text), ("voiceId", .str voiceId)]

/-- The file object built from a base64 string in the array / `data` /
`audio` sub-cases. -/
def b64File (s : String) : Json :=
  .obj [("fileName", .str "data.mpga"), ("fileExtension", .str "mpga"),
        ("mimeType", .str "audio/mpeg"), ("fileSize", .num (fileSizeOf s)),
        ("audioBase64", .str s)]

/-- The binary-audio branch (lines 48–82): base64-encode the raw body,
derive extension and name from the content type, report the raw byte
length as `fileSize`. -/
def binaryBranch (ct : String) (bytes : List Nat) (text voiceId : String) :
    HandlerOutput :=
  let audioBase64 := String.mk (encodeB64 bytes)
  let en := extLookup ct
  ⟨200,
   successBody
     (.obj [("fileName", .str en.2), ("fileExtension", .str en.1),
            ("mimeType", .str ct), ("fileSize", .num bytes.length),
            ("audioBase64", .str audioBase64)])
     text voiceId,
   []⟩

/-- The file object synthesized in the object sub-case when no
top-level `file` is passed through (lines 127–134): defaulted metadata
plus conditional spreads of `audioBase64` / `audioUrl`. -/
def synthFile (data : Json) : Json :=
  .obj ([("fileName", orDefault (data.getField "fileName") (.str "data.mpga")),
         ("fileExtension", orDefault (data.getField "fileExtension") (.str "mpga")),
         ("mimeType", orDefault (data.getField "mimeType") (.str "audio/mpeg")),
         ("fileSize", orDefault (data.getField "fileSize") (.num 0))]
    ++ (if truthyOpt (data.getField "audioBase64") then
          [("audioBase64", (data.getField "audioBase64").getD .null)] else [])
    ++ (if truthyOpt (data.getField "audioUrl") then
          [("audioUrl", (data.getField "audioUrl").getD .null)] else []))

/-- Truncation `rawJson.substring(0, 200)`: the first 200 characters. -/
def truncate200 (s : String) : String := String.mk (s.data.take 200)

/-- The outer `catch` (lines 194–199): a thrown `TypeError` becomes the
generic 500 internal-error response, with its own log line. -/
def internalError : HandlerOutput :=
  ⟨500, errBody "Internal server error", ["Error processing webhook request:"]⟩

/-- The object sub-cases of the JSON branch (lines 124–192) for a
non-null value, on which every property read is safe. -/
def objCascade (data : Json) (text voiceId : String) : HandlerOutput :=
  if truthyOpt (data.getField "audioBase64") || truthyOpt (data.getField "audioUrl")
      || truthyOpt (data.getField "file") then
    ⟨200,
     successBody (orDefault (data.getField "file") (synthFile data)) text voiceId,
     []⟩
  else if truthyOpt (data.getField "data") && isStrOpt (data.getField "data") then
    ⟨200, successBody (b64File (asStr (data.getField "data"))) text voiceId, []⟩
  else if truthyOpt (data.getField "audio") && isStrOpt (data.getField "audio") then
    ⟨200, successBody (b64File (asStr (data.getField "audio"))) text voiceId, []⟩
  else
    ⟨500,
     .obj [("error", .str "Unable to extract audio data from webhook response"),
           ("details", .str "Response format not recognized")],
     ["Unexpected webhook response format: " ++ truncate200 (stringifyJson data)]⟩

/-- The object sub-cases as executed: reading `data.audioBase64`
(line 124) from JSON null throws a `TypeError`, which the outer catch
turns into the internal-error response; otherwise the cascade runs. -/
def objCases (data : Json) (text voiceId : String) : HandlerOutput :=
  match data with
  | .null => internalError
  | _ => objCascade data text voiceId

/-- The array sub-case body (lines 99–121) once the first element is
known non-null, so that `data[0].audio` / `data[0].data` are safe. -/
def arrCase (data first : Json) (text voiceId : String) : HandlerOutput :=
  let base64Audio := orJs (first.getField "audio") (first.getField "data")
  if truthyOpt base64Audio && isStrOpt base64Audio then
    ⟨200, successBody (b64File (asStr base64Audio)) text voiceId, []⟩
  else objCases data text voiceId

/-- The JSON branch (lines 83–192): the array sub-case first — reading
`data[0].audio` (line 99) throws a `TypeError` when the first element
is JSON null, handled by the outer catch — then the object sub-cases. -/
def jsonBranch (data : Json) (text voiceId : String) : HandlerOutput :=
  match data with
  | .arr (.null :: _) => internalError
  | .arr (first :: _) => arrCase data first text voiceId
  | _ => objCases data text voiceId

/-- The `else` side of the content-type test (lines 83–192): parse the
body as JSON (parse failure is the 500 invalid-payload error), then run
the JSON branch. -/
def jsonPath (bodyJson : Option Json) (text voiceId : String) : HandlerOutput :=
  match bodyJson with
  | none =>
      ⟨500, errBody "Invalid JSON response from webhook",
       ["Failed to parse webhook response as JSON"]⟩
  | some data => jsonBranch data text voiceId

/-- The handler body for a non-null request body (destructuring and
field access are safe): field validation, upstream status check,
content-type branching, and JSON-shape normalization. -/
def postBody (reqBody : Json) (up : UpstreamResponse) : HandlerOutput :=
  let text := reqBody.getField "text"
  let voiceId := reqBody.getField "voiceId"
  if !(truthyOpt text && isStrOpt text) then
    ⟨400, errBody "Text is required and must be a string", []⟩
  else if !(truthyOpt voiceId && isStrOpt voiceId) then
    ⟨400, errBody "Voice ID is required and must be a string", []⟩
  else if !(respOk up) then
    ⟨up.status, errBody ("Webhook request failed: " ++ up.statusText),
     ["Webhook error: " ++ up.bodyText]⟩
  else if ctIsAudio up.contentType then
    binaryBranch (up.contentType.getD "") up.bodyBytes (asStr text) (asStr voiceId)
  else
    jsonPath up.bodyJson (asStr text) (asStr voiceId)

/-- The `POST` handler of `src/app/api/webhook/route.ts`, as a pure
function of the parsed request body and the upstream response it would
observe. A JSON-null request body throws a `TypeError` at the
destructuring of `body` into `text` and `voiceId` (line 7), which the
outer catch turns into the internal-error response. -/
def handlePOST (reqBody : Json) (up : UpstreamResponse) : HandlerOutput :=
  match reqBody with
  | .null => internalError
  | _ => postBody reqBody up

/-! ### Spec-side vocabulary and observation helpers -/

/-- Number of `=` characters anywhere in a string (what the code's
`match(/=/g)` counts). -/
def eqCount (s : String) : Nat := s.data.count '='

/-- Number of trailing `=` padding characters (what the spec's formula
speaks about). -/
def trailingPad (s : String) : Nat :=
  (s.data.reverse.takeWhile (fun c => c == '=')).length

/-- The value `floor(L * 3 / 4)` for a base64 string of length `L`. -/
def floorSize (s : String) : Int := ((s.length * 3 / 4 : Nat) : Int)

/-- The spec's wording of the binary-branch trigger: the content-type
header starts with `audio/`. -/
def ctStartsWithAudio : Option String → Bool
  | none => false
  | some c => "audio/".data.isPrefixOf c.data

/-- The `file` object of a handler response body, when present. -/
def fileOf (o : HandlerOutput) : Option Json := o.body.getField "file"

/-- The `fileSize` field of the `file` object of a handler response. -/
def fsOf (o : HandlerOutput) : Option Json :=
  (fileOf o).bind (fun f => f.getField "fileSize")

/-- Whether a JSON object carries a given key. -/
def hasField (j : Json) (k : String) : Bool := (j.getField k).isSome

/-- A well-formed inbound request body (used by witnesses). -/
def goodReq : Json := .obj [("text", .str "hello"), ("voiceId", .str "v1")]

/-- An upstream 503 response (used by witnesses). -/
def up503 : UpstreamResponse :=
  ⟨503, "Service Unavailable", none, [], "busy", none⟩

/-- A request body with no `text` field (used by witnesses). -/
def badReq : Json := .obj [("voiceId", .str "v1")]

/-- An upstream 200 JSON response with the given parsed body (used by
witnesses). -/
def upJson (j : Json) : UpstreamResponse := ⟨200, "OK", none, [], "", some j⟩

/-! ### Shared staging lemmas -/

/-- On a non-null request body the handler is `postBody`. -/
theorem handlePOST_not_null (req : Json) (up : UpstreamResponse) (h : req ≠ .null) :
    handlePOST req up = postBody req up := by
  cases req with
  | null => exact absurd rfl h
  | bool b => rfl
  | num n => rfl
  | str s => rfl
  | arr xs => rfl
  | obj fields => rfl

/-- A request body with a truthy string `text` field is not null. -/
theorem textValid_ne_null (req : Json)
    (ht : (truthyOpt (req.getField "text") && isStrOpt (req.getField "text")) = true) :
    req ≠ Json.null := by
  intro h
  subst h
  simp [truthyOpt, Json.getField] at ht

/-- On a non-null value the object sub-cases are the cascade. -/
theorem objCases_not_null (d : Json) (t v : String) (h : d ≠ .null) :
    objCases d t v = objCascade d t v := by
  cases d with
  | null => exact absurd rfl h
  | bool b => rfl
  | num n => rfl
  | str s => rfl
  | arr xs => rfl
  | obj fields => rfl

/-- On a non-null first element the JSON branch's array case is
`arrCase`. -/
theorem jsonBranch_arr (first : Json) (rest : List Json) (t v : String)
    (h : first ≠ .null) :
    jsonBranch (.arr (first :: rest)) t v = arrCase (.arr (first :: rest)) first t v := by
  cases first with
  | null => exact absurd rfl h
  | bool b => rfl
  | num n => rfl
  | str s => rfl
  | arr xs => rfl
  | obj fields => rfl

/-- With a valid request and a 2xx upstream whose content type does not
match `audio/`, the handler is the JSON path. -/
theorem handle_jsonPath (req : Json) (up : UpstreamResponse)
    (ht : (truthyOpt (req.getField "text") && isStrOpt (req.getField "text")) = true)
    (hv : (truthyOpt (req.getField "voiceId") && isStrOpt (req.getField "voiceId")) = true)
    (hok : respOk up = true) (hct : ctIsAudio up.contentType = false) :
    handlePOST req up =
      jsonPath up.bodyJson (asStr (req.getField "text")) (asStr (req.getField "voiceId")) := by
  rw [handlePOST_not_null req up (textValid_ne_null req ht)]
  simp [postBody, ht, hv, hok, hct]

/-- With a valid request and a 2xx upstream whose content type matches
`audio/`, the handler is the binary-audio branch. -/
theorem handle_binary (req : Json) (up : UpstreamResponse)
    (ht : (truthyOpt (req.getField "text") && isStrOpt (req.getField "text")) = true)
    (hv : (truthyOpt (req.getField "voiceId") && isStrOpt (req.getField "voiceId")) = true)
    (hok : respOk up = true) (hct : ctIsAudio up.contentType = true) :
    handlePOST req up =
      binaryBranch (up.contentType.getD "") up.bodyBytes
        (asStr (req.getField "text")) (asStr (req.getField "voiceId")) := by
  rw [handlePOST_not_null req up (textValid_ne_null req ht)]
  simp [postBody, ht, hv, hok, hct]

/-! ### Claims -/

/-- C6: for every upstream response with a non-2xx status, the handler
fails and propagates the upstream status code and statusText to the
caller (the statusText inside the error message). -/
theorem C6_upstream_reject (req : Json) (up : UpstreamResponse)
    (ht : (truthyOpt (req.getField "text") && isStrOpt (req.getField "text")) = true)
    (hv : (truthyOpt (req.getField "voiceId") && isStrOpt (req.getField "voiceId")) = true)
    (hok : respOk up = false) :
    handlePOST req up =
      ⟨up.status, errBody ("Webhook request failed: " ++ up.statusText),
       ["Webhook error: " ++ up.bodyText]⟩ := by
  rw [handlePOST_not_null req up (textValid_ne_null req ht)]
  simp [postBody, ht, hv, hok]

/-- C6 witness: upstream 503 yields caller-visible status 503. -/
theorem C6_upstream_reject_witness :
    handlePOST goodReq up503 =
      ⟨503, errBody "Webhook request failed: Service Unavailable",
       ["Webhook error: busy"]⟩ ∧ up503.status = 503 :=
  ⟨C6_upstream_reject goodReq up503 rfl rfl rfl, rfl⟩

/-- C8 counterexample: a JSON-null request body — whose `text` field is
certainly missing — is not answered with the 400 validation error: the
destructuring at line 7 throws, and the outer catch answers the 500
internal error instead. -/
theorem C8_validation_counterexample :
    (Json.null).getField "text" = none
    ∧ handlePOST .null up503 = internalError
    ∧ ¬((handlePOST .null up503).status = 400) :=
  ⟨rfl, rfl, by decide⟩

/-- C8 amended: for a request body other than JSON null, a missing,
empty, or non-string `text` or `voiceId` field gets HTTP 400 and the
outcome is independent of the upstream response (no upstream call is
observable); a JSON-null body instead throws at the destructuring and
yields the 500 internal error, likewise for every upstream response. -/
theorem C8_validation_amended (req : Json)
    (h : (req.getField "text" = none ∨ req.getField "text" = some (.str "") ∨
            isStrOpt (req.getField "text") = false)
       ∨ (req.getField "voiceId" = none ∨ req.getField "voiceId" = some (.str "") ∨
            isStrOpt (req.getField "voiceId") = false)) :
    (req ≠ Json.null →
      (∀ up, (handlePOST req up).status = 400)
      ∧ (∀ up1 up2, handlePOST req up1 = handlePOST req up2))
    ∧ (req = Json.null → ∀ up, handlePOST req up = internalError) := by
  refine ⟨fun hnn => ?_, fun hn up => by subst hn; rfl⟩
  have hcase :
      (truthyOpt (req.getField "text") && isStrOpt (req.getField "text")) = false
      ∨ ((truthyOpt (req.getField "text") && isStrOpt (req.getField "text")) = true
         ∧ (truthyOpt (req.getField "voiceId") && isStrOpt (req.getField "voiceId")) = false) := by
    rcases h with h | h
    · left
      rcases h with h | h | h
      · simp [truthyOpt, h]
      · simp [truthyOpt, Json.truthy, h]
      · simp [h]
    · rcases Bool.eq_false_or_eq_true
        (truthyOpt (req.getField "text") && isStrOpt (req.getField "text")) with ht | ht
      · refine Or.inr ⟨ht, ?_⟩
        rcases h with h | h | h
        · simp [truthyOpt, h]
        · simp [truthyOpt, Json.truthy, h]
        · simp [h]
      · exact Or.inl ht
  rcases hcase with hc | ⟨ht, hc⟩
  · exact ⟨fun up => by rw [handlePOST_not_null req up hnn]; simp [postBody, hc],
           fun u1 u2 => by
             rw [handlePOST_not_null req u1 hnn, handlePOST_not_null req u2 hnn]
             simp [postBody, hc]⟩
  · exact ⟨fun up => by rw [handlePOST_not_null req up hnn]; simp [postBody, ht, hc],
           fun u1 u2 => by
             rw [handlePOST_not_null req u1 hnn, handlePOST_not_null req u2 hnn]
             simp [postBody, ht, hc]⟩

/-- C8 amended witness: a non-null request missing `text` gets 400
whatever the upstream would have answered. -/
theorem C8_validation_amended_witness :
    (handlePOST badReq up503).status = 400
    ∧ handlePOST badReq up503 = handlePOST badReq (upJson (.obj [])) :=
  ⟨((C8_validation_amended badReq (Or.inl (Or.inl rfl))).1 (fun h => nomatch h)).1 up503,
   ((C8_validation_amended badReq (Or.inl (Or.inl rfl))).1
      (fun h => nomatch h)).2 up503 (upJson (.obj []))⟩

/-- C9: the code subtracts the count of `=` characters occurring
anywhere in the base64 string; when all `=` are trailing this equals
the spec's `floor(L*3/4) - P`, and with an embedded `=` the computed
size is strictly smaller. -/
theorem C9_padding_anywhere :
    (∀ s : String, fileSizeOf s = floorSize s - (eqCount s : Int))
    ∧ (∀ s : String, eqCount s = trailingPad s →
        fileSizeOf s = floorSize s - (trailingPad s : Int))
    ∧ (∀ s : String, trailingPad s < eqCount s →
        fileSizeOf s < floorSize s - (trailingPad s : Int)) := by
  refine ⟨fun s => rfl, fun s h => ?_, fun s h => ?_⟩
  · rw [show fileSizeOf s = floorSize s - (eqCount s : Int) from rfl, h]
  · rw [show fileSizeOf s = floorSize s - (eqCount s : Int) from rfl]
    omega

/-- C9 witness: `"TWE="` (trailing `=` only) follows the spec formula;
`"A=AA"` (embedded `=`) computes strictly below it. -/
theorem C9_padding_anywhere_witness :
    fileSizeOf "TWE=" = floorSize "TWE=" - (trailingPad "TWE=" : Int)
    ∧ fileSizeOf "A=AA" < floorSize "A=AA" - (trailingPad "A=AA" : Int) :=
  ⟨C9_padding_anywhere.2.1 "TWE=" (by decide),
   C9_padding_anywhere.2.2 "A=AA" (by decide)⟩

/-- C1: for a base64 string (all `=` trailing) of length `L` with `P`
trailing padding characters, each of the three base64 sub-cases (array,
`data`, `audio`) sets `fileSize` to `floor(L*3/4) - P`; in particular
`"TWFu"` yields 3 and `"TWE="` yields 2. -/
theorem C1_base64_fileSize (s : String) (hne : s ≠ "")
    (hpad : eqCount s = trailingPad s) :
    fileSizeOf s = floorSize s - (trailingPad s : Int)
    ∧ (∀ req up,
        (truthyOpt (req.getField "text") && isStrOpt (req.getField "text")) = true →
        (truthyOpt (req.getField "voiceId") && isStrOpt (req.getField "voiceId")) = true →
        respOk up = true → ctIsAudio up.contentType = false →
        up.bodyJson = some (.arr [.obj [("audio", .str s)]]) →
        fsOf (handlePOST req up) = some (.num (floorSize s - (trailingPad s : Int))))
    ∧ (∀ req up,
        (truthyOpt (req.getField "text") && isStrOpt (req.getField "text")) = true →
        (truthyOpt (req.getField "voiceId") && isStrOpt (req.getField "voiceId")) = true →
        respOk up = true → ctIsAudio up.contentType = false →
        up.bodyJson = some (.obj [("data", .str s)]) →
        fsOf (handlePOST req up) = some (.num (floorSize s - (trailingPad s : Int))))
    ∧ (∀ req up,
        (truthyOpt (req.getField "text") && isStrOpt (req.getField "text")) = true →
        (truthyOpt (req.getField "voiceId") && isStrOpt (req.getField "voiceId")) = true →
        respOk up = true → ctIsAudio up.contentType = false →
        up.bodyJson = some (.obj [("audio", .str s)]) →
        fsOf (handlePOST req up) = some (.num (floorSize s - (trailingPad s : Int))))
    ∧ fileSizeOf "TWFu" = 3 ∧ fileSizeOf "TWE=" = 2 := by
  have hsize : fileSizeOf s = floorSize s - (trailingPad s : Int) := by
    rw [show fileSizeOf s = floorSize s - (eqCount s : Int) from rfl, hpad]
  have hs : (s != "") = true := bne_iff_ne.mpr hne
  refine ⟨hsize, ?_, ?_, ?_, by decide, by decide⟩
  · intro req up ht hv hok hct hj
    rw [handle_jsonPath req up ht hv hok hct, hj]
    simp [jsonPath, jsonBranch, arrCase, orJs, objCases, objCascade, Json.getField,
          truthyOpt, Json.truthy, isStrOpt, asStr, hs, b64File, successBody,
          fsOf, fileOf, hsize]
  · intro req up ht hv hok hct hj
    rw [handle_jsonPath req up ht hv hok hct, hj]
    simp [jsonPath, jsonBranch, arrCase, orJs, objCases, objCascade, Json.getField,
          truthyOpt, Json.truthy, isStrOpt, asStr, hs, b64File, successBody,
          fsOf, fileOf, hsize]
  · intro req up ht hv hok hct hj
    rw [handle_jsonPath req up ht hv hok hct, hj]
    simp [jsonPath, jsonBranch, arrCase, orJs, objCases, objCascade, Json.getField,
          truthyOpt, Json.truthy, isStrOpt, asStr, hs, b64File, successBody,
          fsOf, fileOf, hsize]

/-- C1 witness: `"TWE="` through the array sub-case yields
`fileSize = floor(4*3/4) - 1 = 2`. -/
theorem C1_base64_fileSize_witness :
    fsOf (handlePOST goodReq (upJson (.arr [.obj [("audio", .str "TWE=")]]))) =
      some (.num (floorSize "TWE=" - (trailingPad "TWE=" : Int)))
    ∧ fileSizeOf "TWFu" = 3 ∧ fileSizeOf "TWE=" = 2 :=
  ⟨(C1_base64_fileSize "TWE=" (by decide) (by decide)).2.1 goodReq
      (upJson (.arr [.obj [("audio", .str "TWE=")]])) rfl rfl rfl rfl rfl,
   (C1_base64_fileSize "TWE=" (by decide) (by decide)).2.2.2.2.1,
   (C1_base64_fileSize "TWE=" (by decide) (by decide)).2.2.2.2.2⟩

/-- Upstream 200 response whose content type contains `audio/` without
starting with it, and whose body is not valid JSON (C2 counterexample). -/
def upC2 : UpstreamResponse := ⟨200, "OK", some "x-audio/mpeg", [1, 2, 3], "", none⟩

/-- C2 counterexample: for content type `x-audio/mpeg`, which does NOT
start with `audio/`, the handler still takes the binary-audio branch
(the body, which is not valid JSON, is never parsed as JSON and the
request succeeds with status 200), refuting "binary exactly when the
content type starts with `audio/`". -/
theorem C2_starts_with_counterexample :
    ctStartsWithAudio upC2.contentType = false
    ∧ handlePOST goodReq upC2 = binaryBranch "x-audio/mpeg" [1, 2, 3] "hello" "v1"
    ∧ upC2.bodyJson = none
    ∧ (handlePOST goodReq upC2).status = 200 :=
  ⟨by decide, rfl, rfl, rfl⟩

/-- C2 amended: the binary-audio branch is taken exactly when the
content-type header is present and CONTAINS the substring `audio/`
(the code tests `includes`, not a prefix); otherwise the body is
handled by the JSON path. -/
theorem C2_content_type_amended (req : Json) (up : UpstreamResponse)
    (ht : (truthyOpt (req.getField "text") && isStrOpt (req.getField "text")) = true)
    (hv : (truthyOpt (req.getField "voiceId") && isStrOpt (req.getField "voiceId")) = true)
    (hok : respOk up = true) :
    (ctIsAudio up.contentType = true →
        handlePOST req up =
          binaryBranch (up.contentType.getD "") up.bodyBytes
            (asStr (req.getField "text")) (asStr (req.getField "voiceId")))
    ∧ (ctIsAudio up.contentType = false →
        handlePOST req up =
          jsonPath up.bodyJson
            (asStr (req.getField "text")) (asStr (req.getField "voiceId"))) :=
  ⟨fun hct => handle_binary req up ht hv hok hct,
   fun hct => handle_jsonPath req up ht hv hok hct⟩

/-- Upstream 200 binary audio response (used by witnesses). -/
def upAud : UpstreamResponse := ⟨200, "OK", some "audio/mpeg", [77, 97, 110], "", none⟩

/-- C2 amended witness: `audio/mpeg` takes the binary branch; a JSON
object body with no audio content type takes the JSON path. -/
theorem C2_content_type_amended_witness :
    handlePOST goodReq upAud = binaryBranch "audio/mpeg" [77, 97, 110] "hello" "v1"
    ∧ handlePOST goodReq (upJson (.obj [("foo", .str "bar")])) =
        jsonPath (some (.obj [("foo", .str "bar")])) "hello" "v1" :=
  ⟨(C2_content_type_amended goodReq upAud rfl rfl rfl).1 rfl,
   (C2_content_type_amended goodReq (upJson (.obj [("foo", .str "bar")])) rfl rfl rfl).2 rfl⟩

/-- C10: when the content-type header is absent the binary branch is
never taken: the handler is the JSON path, and a body that fails to
parse as JSON yields the 500 invalid-payload error. -/
theorem C10_no_content_type (req : Json) (up : UpstreamResponse)
    (ht : (truthyOpt (req.getField "text") && isStrOpt (req.getField "text")) = true)
    (hv : (truthyOpt (req.getField "voiceId") && isStrOpt (req.getField "voiceId")) = true)
    (hok : respOk up = true) (hct : up.contentType = none) :
    handlePOST req up =
      jsonPath up.bodyJson (asStr (req.getField "text")) (asStr (req.getField "voiceId"))
    ∧ (up.bodyJson = none →
        handlePOST req up =
          ⟨500, errBody "Invalid JSON response from webhook",
           ["Failed to parse webhook response as JSON"]⟩) := by
  have hcta : ctIsAudio up.contentType = false := by rw [hct]; rfl
  refine ⟨handle_jsonPath req up ht hv hok hcta, fun hj => ?_⟩
  rw [handle_jsonPath req up ht hv hok hcta, hj]
  rfl

/-- Upstream 200 response with no content type and an unparseable body
(used by the C10 witness). -/
def upNoCT : UpstreamResponse := ⟨200, "OK", none, [1, 2], "not json", none⟩

/-- C10 witness: absent content type plus invalid JSON body gives the
500 invalid-payload error, not the binary branch. -/
theorem C10_no_content_type_witness :
    handlePOST goodReq upNoCT =
      ⟨500, errBody "Invalid JSON response from webhook",
       ["Failed to parse webhook response as JSON"]⟩ :=
  (C10_no_content_type goodReq upNoCT rfl rfl rfl rfl).2 rfl

/-- When the array sub-case does not fire — and no null first element
makes the array access throw — the JSON branch is exactly the object
sub-cases. -/
theorem jsonBranch_objCases (d : Json) (t v : String)
    (hnn : ∀ rest2, d ≠ .arr (.null :: rest2))
    (harr : ∀ first rest, d = .arr (first :: rest) →
        (truthyOpt (orJs (first.getField "audio") (first.getField "data"))
          && isStrOpt (orJs (first.getField "audio") (first.getField "data"))) = false) :
    jsonBranch d t v = objCases d t v := by
  cases d with
  | arr xs =>
    cases xs with
    | nil => rfl
    | cons first rest =>
      have hb := harr first rest rfl
      have hfn : first ≠ Json.null := by
        intro h
        exact hnn rest (by rw [h])
      rw [jsonBranch_arr first rest t v hfn]
      simp [arrCase, hb]
  | null => rfl
  | bool b => rfl
  | num n => rfl
  | str s => rfl
  | obj fields => rfl

/-- C7 counterexample: JSON null matches none of the four sub-cases —
every one of the original shape hypotheses holds at it — yet the
handler does not produce the unrecognized-format output: reading
`data.audioBase64` from null throws, and the outer catch answers the
generic 500 internal error, whose log line is not the truncated-JSON
one the claim asserts. -/
theorem C7_unrecognized_counterexample :
    truthyOpt ((Json.null).getField "audioBase64") = false
    ∧ truthyOpt ((Json.null).getField "audioUrl") = false
    ∧ truthyOpt ((Json.null).getField "file") = false
    ∧ (truthyOpt ((Json.null).getField "data")
        && isStrOpt ((Json.null).getField "data")) = false
    ∧ (truthyOpt ((Json.null).getField "audio")
        && isStrOpt ((Json.null).getField "audio")) = false
    ∧ handlePOST goodReq (upJson .null) = internalError
    ∧ (handlePOST goodReq (upJson .null)).logged ≠
        ["Unexpected webhook response format: " ++ truncate200 (stringifyJson .null)] :=
  ⟨rfl, rfl, rfl, rfl, rfl, rfl, by decide⟩

/-- C7 amended: a parsed JSON value matching none of the four sub-cases
— other than JSON null and arrays with a null first element, where
property access throws and the outer catch answers the generic 500
internal error — yields the 500 unrecognized-format error; the caller
body is a fixed generic message (independent of the payload), and only
the log carries the raw JSON, truncated to its first 200 characters. -/
theorem C7_unrecognized_amended (req : Json) (up : UpstreamResponse)
    (ht : (truthyOpt (req.getField "text") && isStrOpt (req.getField "text")) = true)
    (hv : (truthyOpt (req.getField "voiceId") && isStrOpt (req.getField "voiceId")) = true)
    (hok : respOk up = true) (hct : ctIsAudio up.contentType = false)
    (d : Json) (hj : up.bodyJson = some d)
    (hnp : d ≠ .null)
    (hnarr : ∀ rest2, d ≠ .arr (.null :: rest2))
    (harr : ∀ first rest, d = .arr (first :: rest) →
        (truthyOpt (orJs (first.getField "audio") (first.getField "data"))
          && isStrOpt (orJs (first.getField "audio") (first.getField "data"))) = false)
    (h1 : truthyOpt (d.getField "audioBase64") = false)
    (h2 : truthyOpt (d.getField "audioUrl") = false)
    (h3 : truthyOpt (d.getField "file") = false)
    (h4 : (truthyOpt (d.getField "data") && isStrOpt (d.getField "data")) = false)
    (h5 : (truthyOpt (d.getField "audio") && isStrOpt (d.getField "audio")) = false) :
    handlePOST req up =
      ⟨500, .obj [("error", .str "Unable to extract audio data from webhook response"),
                  ("details", .str "Response format not recognized")],
       ["Unexpected webhook response format: " ++ truncate200 (stringifyJson d)]⟩
    ∧ (truncate200 (stringifyJson d)).length ≤ 200 := by
  constructor
  · rw [handle_jsonPath req up ht hv hok hct, hj]
    show jsonBranch d _ _ = _
    rw [jsonBranch_objCases d _ _ hnarr harr, objCases_not_null d _ _ hnp]
    simp [objCascade, h1, h2, h3, h4, h5]
  · rw [show (truncate200 (stringifyJson d)).length
          = ((stringifyJson d).data.take 200).length from rfl,
        List.length_take]
    omega

/-- C7 amended witness: an object whose only field is `foo` fails with
the unrecognized-format error. -/
theorem C7_unrecognized_amended_witness :
    handlePOST goodReq (upJson (.obj [("foo", .str "bar")])) =
      ⟨500, .obj [("error", .str "Unable to extract audio data from webhook response"),
                  ("details", .str "Response format not recognized")],
       ["Unexpected webhook response format: "
          ++ truncate200 (stringifyJson (.obj [("foo", .str "bar")]))]⟩ :=
  (C7_unrecognized_amended goodReq (upJson (.obj [("foo", .str "bar")])) rfl rfl rfl rfl
      (.obj [("foo", .str "bar")]) rfl (fun h => nomatch h) (fun _ h => nomatch h)
      (fun _ _ h => nomatch h) rfl rfl rfl rfl rfl).1

/-- C4 counterexample: for an array whose sole element is an object
with an empty-string `audio` field, that element does have an `audio`
string field, yet the array sub-case is
not selected: the empty string is JS-falsy, so the handler falls
through every sub-case and answers 500 instead of the claimed
`audio/mpeg` success. -/
theorem C4_array_counterexample :
    (Json.obj [("audio", .str "")]).getField "audio" = some (.str "")
    ∧ isStrOpt ((Json.obj [("audio", .str "")]).getField "audio") = true
    ∧ (handlePOST goodReq (upJson (.arr [.obj [("audio", .str "")]]))).status = 500 :=
  ⟨rfl, rfl, rfl⟩

/-- C4 amended: the array sub-case is selected when the first element's
`audio` field — or, when `audio` is JS-falsy, its `data` field — is a
NON-EMPTY string (the code tests `base64Audio && typeof base64Audio ===
'string'` on `data[0].audio || data[0].data`); it then produces
`mimeType audio/mpeg` and `fileName data.mpga`, and for
an element carrying both `audio = QUJD` and `data = WFla` the `audio`
string wins and the sibling `data` field is ignored. -/
theorem C4_array_amended (req : Json) (up : UpstreamResponse)
    (ht : (truthyOpt (req.getField "text") && isStrOpt (req.getField "text")) = true)
    (hv : (truthyOpt (req.getField "voiceId") && isStrOpt (req.getField "voiceId")) = true)
    (hok : respOk up = true) (hct : ctIsAudio up.contentType = false)
    (first : Json) (rest : List Json) (s : String)
    (hj : up.bodyJson = some (.arr (first :: rest)))
    (hsel : orJs (first.getField "audio") (first.getField "data") = some (.str s))
    (hne : s ≠ "") :
    handlePOST req up =
      ⟨200, successBody (b64File s) (asStr (req.getField "text"))
              (asStr (req.getField "voiceId")), []⟩
    ∧ (b64File s).getField "mimeType" = some (.str "audio/mpeg")
    ∧ (b64File s).getField "fileName" = some (.str "data.mpga")
    ∧ orJs ((Json.obj [("audio", .str "QUJD"), ("data", .str "WFla")]).getField "audio")
          ((Json.obj [("audio", .str "QUJD"), ("data", .str "WFla")]).getField "data")
        = some (.str "QUJD") := by
  have hs : (s != "") = true := bne_iff_ne.mpr hne
  have hfn : first ≠ Json.null := by
    intro h
    rw [h] at hsel
    simp [orJs, truthyOpt, Json.getField] at hsel
  refine ⟨?_, rfl, rfl, rfl⟩
  rw [handle_jsonPath req up ht hv hok hct, hj]
  show jsonBranch (Json.arr (first :: rest)) _ _ = _
  rw [jsonBranch_arr first rest _ _ hfn]
  simp [arrCase, hsel, truthyOpt, Json.truthy, isStrOpt, hs, asStr]

/-- C4 amended witness: an array element carrying both `audio = QUJD`
and `data = WFla` selects the array sub-case on the `audio` string. -/
theorem C4_array_amended_witness :
    handlePOST goodReq
        (upJson (.arr [.obj [("audio", .str "QUJD"), ("data", .str "WFla")]])) =
      ⟨200, successBody (b64File "QUJD") "hello" "v1", []⟩ :=
  (C4_array_amended goodReq
      (upJson (.arr [.obj [("audio", .str "QUJD"), ("data", .str "WFla")]]))
      rfl rfl rfl rfl
      (.obj [("audio", .str "QUJD"), ("data", .str "WFla")]) [] "QUJD"
      rfl rfl (by decide)).1

/-- The `file` object of a binary-branch response. -/
theorem fileOf_binaryBranch (ct : String) (bytes : List Nat) (t v : String) :
    fileOf (binaryBranch ct bytes t v) =
      some (.obj [("fileName", .str (extLookup ct).2),
                  ("fileExtension", .str (extLookup ct).1),
                  ("mimeType", .str ct), ("fileSize", .num bytes.length),
                  ("audioBase64", .str (String.mk (encodeB64 bytes)))]) := rfl

/-- The `file` object of a success body. -/
theorem fileOf_success (X : Json) (st : Nat) (t v : String) (lg : List String) :
    fileOf ⟨st, successBody X t v, lg⟩ = some X := rfl

/-- In the object sub-case cascade, when no top-level `file` is passed
through, the returned `file` object is the synthesized one or a
`b64File`, and in the synthesized case one of the two audio fields was
truthy. -/
theorem fileOf_objCascade (d : Json) (t v : String) (f : Json)
    (hfile : truthyOpt (d.getField "file") = false)
    (hf : fileOf (objCascade d t v) = some f) :
    (f = synthFile d
      ∧ (truthyOpt (d.getField "audioBase64")
          || truthyOpt (d.getField "audioUrl")) = true)
    ∨ f = b64File (asStr (d.getField "data"))
    ∨ f = b64File (asStr (d.getField "audio")) := by
  unfold objCascade at hf
  split at hf
  · rename_i hcond
    left
    have hod : orDefault (d.getField "file") (synthFile d) = synthFile d := by
      simp [orDefault, hfile]
    rw [hod, fileOf_success] at hf
    refine ⟨(Option.some.inj hf).symm, ?_⟩
    simpa [hfile] using hcond
  · split at hf
    · rw [fileOf_success] at hf
      exact Or.inr (Or.inl (Option.some.inj hf).symm)
    · split at hf
      · rw [fileOf_success] at hf
        exact Or.inr (Or.inr (Option.some.inj hf).symm)
      · simp [fileOf, Json.getField] at hf

/-- A synthesized file carries whichever audio field was truthy. -/
theorem synthFile_has (d : Json)
    (hcond : (truthyOpt (d.getField "audioBase64")
        || truthyOpt (d.getField "audioUrl")) = true) :
    hasField (synthFile d) "audioBase64" = true
    ∨ hasField (synthFile d) "audioUrl" = true := by
  by_cases hb : truthyOpt (d.getField "audioBase64") = true
  · left
    unfold hasField synthFile
    rw [hb]
    by_cases hu : truthyOpt (d.getField "audioUrl") = true
    · rw [hu]
      rfl
    · rw [Bool.not_eq_true] at hu
      rw [hu]
      rfl
  · right
    rw [Bool.not_eq_true] at hb
    have hu : truthyOpt (d.getField "audioUrl") = true := by
      simpa [hb] using hcond
    unfold hasField synthFile
    rw [hb, hu]
    rfl

/-- A JSON object with both top-level audio fields (C5 counterexample). -/
def dC5 : Json :=
  .obj [("audioBase64", .str "QUJD"), ("audioUrl", .str "http://example.com/a.mp3")]

/-- C5 counterexample: a payload carrying both `audioBase64` and
`audioUrl` succeeds with BOTH representations populated in the returned
file object, refuting "never both". -/
theorem C5_exactly_one_counterexample :
    (handlePOST goodReq (upJson dC5)).status = 200
    ∧ fileOf (handlePOST goodReq (upJson dC5)) = some (synthFile dC5)
    ∧ hasField (synthFile dC5) "audioBase64" = true
    ∧ hasField (synthFile dC5) "audioUrl" = true :=
  ⟨rfl, rfl, rfl, rfl⟩

/-- C5 amended: whenever the handler succeeds without passing a
top-level `file` object through as-is, the returned file object has at
least one of `audioBase64` / `audioUrl` populated (both may be, as the
counterexample shows); the binary, array, `data` and `audio` sub-cases
populate exactly `audioBase64`. -/
theorem C5_payload_amended :
    (∀ (req : Json) (up : UpstreamResponse),
      (∀ d, up.bodyJson = some d → truthyOpt (d.getField "file") = false) →
      ∀ f, fileOf (handlePOST req up) = some f →
        hasField f "audioBase64" = true ∨ hasField f "audioUrl" = true)
    ∧ (∀ s, hasField (b64File s) "audioBase64" = true
          ∧ hasField (b64File s) "audioUrl" = false) := by
  refine ⟨?_, fun s => ⟨rfl, rfl⟩⟩
  intro req up hfile f hf
  by_cases hnull : req = Json.null
  case pos =>
    rw [hnull, show handlePOST Json.null up = internalError from rfl] at hf
    simp [internalError, fileOf, errBody, Json.getField] at hf
  by_cases ht : (truthyOpt (req.getField "text") && isStrOpt (req.getField "text")) = true
  case neg =>
    rw [Bool.not_eq_true] at ht
    have hx : handlePOST req up =
        ⟨400, errBody "Text is required and must be a string", []⟩ := by
      rw [handlePOST_not_null req up hnull]
      simp [postBody, ht]
    rw [hx] at hf
    simp [fileOf, errBody, Json.getField] at hf
  by_cases hv : (truthyOpt (req.getField "voiceId") && isStrOpt (req.getField "voiceId")) = true
  case neg =>
    rw [Bool.not_eq_true] at hv
    have hx : handlePOST req up =
        ⟨400, errBody "Voice ID is required and must be a string", []⟩ := by
      rw [handlePOST_not_null req up hnull]
      simp [postBody, ht, hv]
    rw [hx] at hf
    simp [fileOf, errBody, Json.getField] at hf
  by_cases hok : respOk up = true
  case neg =>
    rw [Bool.not_eq_true] at hok
    have hx : handlePOST req up =
        ⟨up.status, errBody ("Webhook request failed: " ++ up.statusText),
         ["Webhook error: " ++ up.bodyText]⟩ := by
      rw [handlePOST_not_null req up hnull]
      simp [postBody, ht, hv, hok]
    rw [hx] at hf
    simp [fileOf, errBody, Json.getField] at hf
  by_cases hct : ctIsAudio up.contentType = true
  · rw [handle_binary req up ht hv hok hct, fileOf_binaryBranch] at hf
    left
    rw [← Option.some.inj hf]
    rfl
  · rw [Bool.not_eq_true] at hct
    rw [handle_jsonPath req up ht hv hok hct] at hf
    rcases hbj : up.bodyJson with _ | d
    · rw [hbj] at hf
      simp [jsonPath, fileOf, errBody, Json.getField] at hf
    · rw [hbj] at hf
      have hfd := hfile d hbj
      have hcases :
          (f = synthFile d
            ∧ (truthyOpt (d.getField "audioBase64")
                || truthyOpt (d.getField "audioUrl")) = true)
          ∨ f = b64File (asStr (d.getField "data"))
          ∨ f = b64File (asStr (d.getField "audio"))
          ∨ ∃ s, f = b64File s := by
        cases d with
        | arr xs =>
          cases xs with
          | nil =>
            have hx : jsonPath (some (Json.arr [])) (asStr (req.getField "text"))
                (asStr (req.getField "voiceId")) =
                objCases (Json.arr []) (asStr (req.getField "text"))
                  (asStr (req.getField "voiceId")) := rfl
            rw [hx, objCases_not_null (Json.arr []) _ _ (fun hc => nomatch hc)] at hf
            rcases fileOf_objCascade _ _ _ _ hfd hf with h | h | h
            · exact Or.inl h
            · exact Or.inr (Or.inl h)
            · exact Or.inr (Or.inr (Or.inl h))
          | cons first rest =>
            by_cases hfn : first = Json.null
            case pos =>
              rw [hfn, show jsonPath (some (Json.arr (Json.null :: rest)))
                    (asStr (req.getField "text")) (asStr (req.getField "voiceId")) =
                  internalError from rfl] at hf
              simp [internalError, fileOf, errBody, Json.getField] at hf
            by_cases hb : (truthyOpt (orJs (first.getField "audio") (first.getField "data"))
                && isStrOpt (orJs (first.getField "audio") (first.getField "data"))) = true
            · have hx : jsonPath (some (Json.arr (first :: rest)))
                  (asStr (req.getField "text")) (asStr (req.getField "voiceId")) =
                  ⟨200, successBody
                          (b64File (asStr (orJs (first.getField "audio")
                            (first.getField "data"))))
                          (asStr (req.getField "text"))
                          (asStr (req.getField "voiceId")), []⟩ := by
                show jsonBranch (Json.arr (first :: rest)) _ _ = _
                rw [jsonBranch_arr first rest _ _ hfn]
                simp [arrCase, hb]
              rw [hx, fileOf_success] at hf
              exact Or.inr (Or.inr (Or.inr ⟨_, (Option.some.inj hf).symm⟩))
            · rw [Bool.not_eq_true] at hb
              have hx : jsonPath (some (Json.arr (first :: rest)))
                  (asStr (req.getField "text")) (asStr (req.getField "voiceId")) =
                  objCases (Json.arr (first :: rest)) (asStr (req.getField "text"))
                    (asStr (req.getField "voiceId")) := by
                show jsonBranch (Json.arr (first :: rest)) _ _ = _
                rw [jsonBranch_arr first rest _ _ hfn]
                simp [arrCase, hb]
              rw [hx, objCases_not_null (Json.arr (first :: rest)) _ _
                    (fun hc => nomatch hc)] at hf
              rcases fileOf_objCascade _ _ _ _ hfd hf with h | h | h
              · exact Or.inl h
              · exact Or.inr (Or.inl h)
              · exact Or.inr (Or.inr (Or.inl h))
        | null =>
          rw [show jsonPath (some Json.null) (asStr (req.getField "text"))
                (asStr (req.getField "voiceId")) = internalError from rfl] at hf
          simp [internalError, fileOf, errBody, Json.getField] at hf
        | bool b =>
          rw [show jsonPath (some (Json.bool b)) (asStr (req.getField "text"))
                (asStr (req.getField "voiceId")) =
              objCases (Json.bool b) (asStr (req.getField "text"))
                (asStr (req.getField "voiceId")) from rfl,
              objCases_not_null (Json.bool b) _ _ (fun hc => nomatch hc)] at hf
          rcases fileOf_objCascade _ _ _ _ hfd hf with h | h | h
          · exact Or.inl h
          · exact Or.inr (Or.inl h)
          · exact Or.inr (Or.inr (Or.inl h))
        | num n =>
          rw [show jsonPath (some (Json.num n)) (asStr (req.getField "text"))
                (asStr (req.getField "voiceId")) =
              objCases (Json.num n) (asStr (req.getField "text"))
                (asStr (req.getField "voiceId")) from rfl,
              objCases_not_null (Json.num n) _ _ (fun hc => nomatch hc)] at hf
          rcases fileOf_objCascade _ _ _ _ hfd hf with h | h | h
          · exact Or.inl h
          · exact Or.inr (Or.inl h)
          · exact Or.inr (Or.inr (Or.inl h))
        | str s =>
          rw [show jsonPath (some (Json.str s)) (asStr (req.getField "text"))
                (asStr (req.getField "voiceId")) =
              objCases (Json.str s) (asStr (req.getField "text"))
                (asStr (req.getField "voiceId")) from rfl,
              objCases_not_null (Json.str s) _ _ (fun hc => nomatch hc)] at hf
          rcases fileOf_objCascade _ _ _ _ hfd hf with h | h | h
          · exact Or.inl h
          · exact Or.inr (Or.inl h)
          · exact Or.inr (Or.inr (Or.inl h))
        | obj fields =>
          rw [show jsonPath (some (Json.obj fields)) (asStr (req.getField "text"))
                (asStr (req.getField "voiceId")) =
              objCases (Json.obj fields) (asStr (req.getField "text"))
                (asStr (req.getField "voiceId")) from rfl,
              objCases_not_null (Json.obj fields) _ _ (fun hc => nomatch hc)] at hf
          rcases fileOf_objCascade _ _ _ _ hfd hf with h | h | h
          · exact Or.inl h
          · exact Or.inr (Or.inl h)
          · exact Or.inr (Or.inr (Or.inl h))
      rcases hcases with ⟨hfX, hcond⟩ | hfX | hfX | ⟨s, hfX⟩
      · rw [hfX]
        exact synthFile_has d hcond
      · rw [hfX]
        left
        rfl
      · rw [hfX]
        left
        rfl
      · rw [hfX]
        left
        rfl

/-- C5 amended witness: a payload with only `audioUrl` yields a file
object with at least one representation populated. -/
theorem C5_payload_amended_witness :
    hasField (synthFile (.obj [("audioUrl", .str "http://example.com/a.mp3")]))
        "audioBase64" = true
    ∨ hasField (synthFile (.obj [("audioUrl", .str "http://example.com/a.mp3")]))
        "audioUrl" = true :=
  C5_payload_amended.1 goodReq
    (upJson (.obj [("audioUrl", .str "http://example.com/a.mp3")]))
    (fun d hd => by cases Option.some.inj hd; rfl)
    (synthFile (.obj [("audioUrl", .str "http://example.com/a.mp3")])) rfl

/-- Decoding inverts encoding on each 6-bit group. -/
theorem decC_encC : ∀ n, n < 64 → decC (encC n) = n := by decide

/-- Encoded characters are never the padding character. -/
theorem encC_ne_pad : ∀ n, n < 64 → encC n ≠ '=' := by decide

/-- Standard base64 decoding inverts the encoder on byte sequences. -/
theorem decode_encode : ∀ (bs : List Nat), (∀ b ∈ bs, b < 256) →
    decodeB64 (encodeB64 bs) = bs
  | [], _ => rfl
  | [b0], h => by
      have h0 : b0 < 256 := h b0 (by simp)
      have e0 := decC_encC (b0 / 4) (by omega)
      have e1 := decC_encC (b0 % 4 * 16) (by omega)
      simp [encodeB64, decodeB64, decodeQuad, e0, e1]
      omega
  | [b0, b1], h => by
      have h0 : b0 < 256 := h b0 (by simp)
      have h1 : b1 < 256 := h b1 (by simp)
      have e0 := decC_encC (b0 / 4) (by omega)
      have e1 := decC_encC (b0 % 4 * 16 + b1 / 16) (by omega)
      have e2 := decC_encC (b1 % 16 * 4) (by omega)
      have n2 := encC_ne_pad (b1 % 16 * 4) (by omega)
      simp [encodeB64, decodeB64, decodeQuad, n2, e0, e1, e2]
      omega
  | b0 :: b1 :: b2 :: rest, h => by
      have h0 : b0 < 256 := h b0 (by simp)
      have h1 : b1 < 256 := h b1 (by simp)
      have h2 : b2 < 256 := h b2 (by simp)
      have ih := decode_encode rest (fun b hb => h b (by simp [hb]))
      have e0 := decC_encC (b0 / 4) (by omega)
      have e1 := decC_encC (b0 % 4 * 16 + b1 / 16) (by omega)
      have e2 := decC_encC (b1 % 16 * 4 + b2 / 64) (by omega)
      have e3 := decC_encC (b2 % 64) (by omega)
      have n2 := encC_ne_pad (b1 % 16 * 4 + b2 / 64) (by omega)
      have n3 := encC_ne_pad (b2 % 64) (by omega)
      simp [encodeB64, decodeB64, decodeQuad, n2, n3, e0, e1, e2, e3, ih]
      omega

/-- C3: for any byte buffer with content type `audio/mpeg`, the handler
succeeds with extension `mpga`, `fileSize` equal to the raw byte length
(not the encoded length), and an `audioBase64` payload that decodes
back to the buffer exactly; the extension comes from the fixed
substring cascade mpeg→mpga, mp3→mp3, wav→wav, ogg→ogg, else mpga. -/
theorem C3_binary_audio (B : List Nat) (hB : ∀ b ∈ B, b < 256)
    (req : Json) (up : UpstreamResponse)
    (ht : (truthyOpt (req.getField "text") && isStrOpt (req.getField "text")) = true)
    (hv : (truthyOpt (req.getField "voiceId") && isStrOpt (req.getField "voiceId")) = true)
    (hok : respOk up = true)
    (hct : up.contentType = some "audio/mpeg") (hbytes : up.bodyBytes = B) :
    handlePOST req up =
      ⟨200, successBody
          (.obj [("fileName", .str "data.mpga"), ("fileExtension", .str "mpga"),
                 ("mimeType", .str "audio/mpeg"), ("fileSize", .num B.length),
                 ("audioBase64", .str (String.mk (encodeB64 B)))])
          (asStr (req.getField "text")) (asStr (req.getField "voiceId")), []⟩
    ∧ decodeB64 (encodeB64 B) = B
    ∧ (∀ ct, strContains ct "mpeg" = true → extLookup ct = ("mpga", "data.mpga"))
    ∧ (∀ ct, strContains ct "mpeg" = false → strContains ct "mp3" = true →
        extLookup ct = ("mp3", "data.mp3"))
    ∧ (∀ ct, strContains ct "mpeg" = false → strContains ct "mp3" = false →
        strContains ct "wav" = true → extLookup ct = ("wav", "data.wav"))
    ∧ (∀ ct, strContains ct "mpeg" = false → strContains ct "mp3" = false →
        strContains ct "wav" = false → strContains ct "ogg" = true →
        extLookup ct = ("ogg", "data.ogg"))
    ∧ (∀ ct, strContains ct "mpeg" = false → strContains ct "mp3" = false →
        strContains ct "wav" = false → strContains ct "ogg" = false →
        extLookup ct = ("mpga", "data.mpga")) := by
  have hcta : ctIsAudio up.contentType = true := by
    rw [hct]
    decide
  refine ⟨?_, decode_encode B hB, ?_, ?_, ?_, ?_, ?_⟩
  · rw [handle_binary req up ht hv hok hcta, hct, hbytes]
    rfl
  · intro ct h1
    simp [extLookup, h1]
  · intro ct h1 h2
    simp [extLookup, h1, h2]
  · intro ct h1 h2 h3
    simp [extLookup, h1, h2, h3]
  · intro ct h1 h2 h3 h4
    simp [extLookup, h1, h2, h3, h4]
  · intro ct h1 h2 h3 h4
    simp [extLookup, h1, h2, h3, h4]

/-- C3 witness: the bytes of `"Man"` under `audio/mpeg` yield extension
`mpga`, size 3, payload `"TWFu"`, and the payload decodes back. -/
theorem C3_binary_audio_witness :
    handlePOST goodReq upAud =
      ⟨200, successBody
          (.obj [("fileName", .str "data.mpga"), ("fileExtension", .str "mpga"),
                 ("mimeType", .str "audio/mpeg"), ("fileSize", .num 3),
                 ("audioBase64", .str "TWFu")]) "hello" "v1", []⟩
    ∧ decodeB64 (encodeB64 [77, 97, 110]) = [77, 97, 110] :=
  ⟨(C3_binary_audio [77, 97, 110] (by decide) goodReq upAud rfl rfl rfl rfl rfl).1,
   (C3_binary_audio [77, 97, 110] (by decide) goodReq upAud rfl rfl rfl rfl rfl).2.1⟩

end Speecha





